import Mathlib

/-!
# Verification of the selenium-automation crawl core

Shallow embedding of the challenge-detection scorer
(`runner/captcha_detector.py`), the crawl orchestrator
(`runner/selenium_service.py` / `runner/enhanced_selenium_service.py`),
the task state operations (`runner/views.py`), the stats model
(`runner/models.py`) and the alert-rule engine (`runner/monitoring.py`).

Python floats are modelled as rationals (`ℚ`); machine integers as
`Nat`/`Int`; code that can raise returns `Except`.  Browser/driver and
regex behaviour is abstracted as boolean oracles inside a
`PageSignals` snapshot, exactly the inputs the scorer reads.
-/

/-! ## ConfidenceScorer (`runner/captcha_detector.py`) -/

/-- One entry of `AdvancedCaptchaDetector._load_detection_patterns`:
a challenge type with its selector list, text-pattern list,
iframe-pattern list and weight. -/
structure PatternSet where
  name : String
  selectors : List String
  text_patterns : List String
  iframe_patterns : List String
  weight : ℚ
deriving DecidableEq, Repr, Inhabited

/-- Snapshot of the page signals the scorer reads from the driver:
whether `driver.find_elements(By.CSS_SELECTOR, sel)` is non-empty,
whether `re.search(pat, page_text)` succeeds, the `src` of each
iframe on the page, and whether `re.search(pat, src)` succeeds. -/
structure PageSignals where
  selectorHit : String → Bool
  textHit : String → Bool
  iframeSrcs : List String
  srcHit : String → String → Bool

/-- `AdvancedCaptchaDetector.confidence_threshold` (constructor, line 22). -/
def confidence_threshold : ℚ := 0.7

/-- The pattern table of `_load_detection_patterns`
(`runner/captcha_detector.py` lines 24-137). -/
def detection_patterns : List PatternSet :=
  [ { name := "recaptcha_v2"
    , selectors :=
        [ ".g-recaptcha", "#g-recaptcha", ".g-recaptcha-response"
        , "[data-sitekey]", "iframe[src*=\"google.com/recaptcha\"]"
        , "iframe[src*=\"gstatic.com/recaptcha\"]"
        , "div[class*=\"recaptcha\"]", "div[id*=\"recaptcha\"]" ]
    , text_patterns :=
        [ "verify\\s+you\\s+are\\s+not\\s+a\\s+robot"
        , "i\x27m\\s+not\\s+a\\s+robot"
        , "prove\\s+you\\s+are\\s+human"
        , "security\\s+check", "captcha" ]
    , iframe_patterns := [ "google\\.com/recaptcha", "gstatic\\.com/recaptcha" ]
    , weight := 1.0 }
  , { name := "recaptcha_v3"
    , selectors :=
        [ "script[src*=\"recaptcha/releases\"]"
        , "script[src*=\"recaptcha/api.js\"]"
        , "[data-callback*=\"recaptcha\"]", "script[src*=\"recaptcha\"]" ]
    , text_patterns := [ "grecaptcha", "recaptcha" ]
    , iframe_patterns := []
    , weight := 0.8 }
  , { name := "hcaptcha"
    , selectors :=
        [ ".h-captcha", "#h-captcha", "[data-hcaptcha-response]"
        , "iframe[src*=\"hcaptcha.com\"]"
        , "div[role=\"presentation\"][data-hcaptcha-response]"
        , "div[class*=\"hcaptcha\"]" ]
    , text_patterns :=
        [ "hcaptcha", "verify\\s+you\\s+are\\s+human", "security\\s+check" ]
    , iframe_patterns := [ "hcaptcha\\.com" ]
    , weight := 1.0 }
  , { name := "funcaptcha"
    , selectors :=
        [ ".funcaptcha", "#funcaptcha"
        , "iframe[src*=\"funcaptcha.com\"]", "div[class*=\"funcaptcha\"]" ]
    , text_patterns := [ "funcaptcha", "arkose\\s+labs" ]
    , iframe_patterns := [ "funcaptcha\\.com", "arkoselabs\\.com" ]
    , weight := 0.9 }
  , { name := "cloudflare"
    , selectors :=
        [ ".cf-challenge", "#cf-challenge"
        , "iframe[src*=\"cloudflare.com\"]", "div[class*=\"cf-\"]" ]
    , text_patterns :=
        [ "checking\\s+your\\s+browser", "cloudflare"
        , "security\\s+check", "please\\s+wait" ]
    , iframe_patterns := [ "cloudflare\\.com" ]
    , weight := 0.9 }
  , { name := "generic_captcha"
    , selectors :=
        [ "[class*=\"captcha\"]", "[id*=\"captcha\"]"
        , "input[name*=\"captcha\"]", "img[src*=\"captcha\"]"
        , "canvas[id*=\"captcha\"]" ]
    , text_patterns :=
        [ "captcha", "verification\\s+code", "enter\\s+the\\s+code"
        , "type\\s+the\\s+characters", "security\\s+code" ]
    , iframe_patterns := []
    , weight := 0.7 } ]

/-- Number of selectors of `pats` that match on the page
(`_calculate_confidence` lines 177-184: one count per selector whose
`find_elements` result is non-empty). -/
def selector_matches (sig : PageSignals) (pats : PatternSet) : Nat :=
  (pats.selectors.filter sig.selectorHit).length

/-- Number of text patterns of `pats` matching the page text
(`_calculate_confidence` lines 190-194). -/
def text_matches (sig : PageSignals) (pats : PatternSet) : Nat :=
  (pats.text_patterns.filter sig.textHit).length

/-- Number of iframes whose `src` matches some iframe pattern of `pats`
(`_calculate_confidence` lines 200-207: the outer loop runs over the
iframes of the page and breaks at the first matching pattern, so this
counts matching *iframes*, not patterns). -/
def iframe_matches (sig : PageSignals) (pats : PatternSet) : Nat :=
  (sig.iframeSrcs.filter
    (fun src => pats.iframe_patterns.any (fun p => sig.srcHit p src))).length

/-- `AdvancedCaptchaDetector._calculate_confidence`
(`runner/captcha_detector.py` lines 171-212): each signal family
contributes `(matches / patterns_in_list) * share` when at least one
match was found, and the sum is scaled by the type weight. -/
def calculate_confidence (pats : PatternSet) (sig : PageSignals) : ℚ :=
  let sm := selector_matches sig pats
  let c1 : ℚ :=
    if 0 < sm then ((sm : ℚ) / (pats.selectors.length : ℚ)) * 0.4 else 0
  let tm := text_matches sig pats
  let c2 : ℚ :=
    if 0 < tm then ((tm : ℚ) / (pats.text_patterns.length : ℚ)) * 0.3 else 0
  let fm := iframe_matches sig pats
  let c3 : ℚ :=
    if 0 < fm then ((fm : ℚ) / (pats.iframe_patterns.length : ℚ)) * 0.3 else 0
  (c1 + c2 + c3) * pats.weight

/-- `matches_found / patterns_checked` as a rational; division by zero
is zero, matching the "0 if the pattern list is empty" reading. -/
def ratioOf (m n : Nat) : ℚ := (m : ℚ) / (n : ℚ)

/-! ### `detect_captcha` (lines 139-169)

The method folds over the pattern table keeping the best
`(detected, type, confidence)` triple; any exception raised while a
type's signals are gathered is caught by the surrounding `try` and the
*accumulated* result is returned.  A type's signal gathering is
abstracted as `Except Unit ℚ`: `ok c` when `_calculate_confidence`
returns `c`, `error` when it raises. -/

structure DetectionResult where
  detected : Bool
  ctype : String
  confidence : ℚ
deriving DecidableEq, Repr

/-- The initial `detection_result` dict of `detect_captcha` (lines 141-148). -/
def initDetection : DetectionResult :=
  { detected := false, ctype := "unknown", confidence := 0 }

/-- Loop body of `detect_captcha` (lines 152-158): keep the new type
when its confidence is strictly larger, and set `detected` from the
threshold comparison. -/
def updateDetection (r : DetectionResult) (t : String) (c : ℚ) : DetectionResult :=
  if r.confidence < c then
    { detected := decide (confidence_threshold ≤ c), ctype := t, confidence := c }
  else r

/-- The `for` loop of `detect_captcha` under its `try`: a raising
`_calculate_confidence` aborts the loop and the accumulated result is
returned by the `except` handler (lines 167-169). -/
def detectLoop : DetectionResult → List (String × Except Unit ℚ) → DetectionResult
  | r, [] => r
  | r, (t, Except.ok c) :: rest => detectLoop (updateDetection r t c) rest
  | r, (_, Except.error _) :: _ => r

/-- Declaration order of the pattern table (dict iteration order). -/
def captcha_types : List String :=
  [ "recaptcha_v2", "recaptcha_v3", "hcaptcha"
  , "funcaptcha", "cloudflare", "generic_captcha" ]

/-- `AdvancedCaptchaDetector.detect_captcha` over an abstract per-type
scoring outcome (`score t` is what `_calculate_confidence` does for
type `t`: a value, or an exception). -/
def detect_captcha (score : String → Except Unit ℚ) : DetectionResult :=
  detectLoop initDetection (captcha_types.map (fun t => (t, score t)))

/-! ## Task state operations (`runner/models.py`, `runner/views.py`) -/

/-- `AutomationTask.STATUS_CHOICES` (`runner/models.py` lines 10-18). -/
inductive TaskStatus where
  | PENDING
  | RUNNING
  | CAPTCHA_DETECTED
  | COMPLETED
  | FAILED
  | CANCELLED
  | PAUSED
deriving DecidableEq, Repr

open TaskStatus

/-- The task fields touched by the state-changing views: `status`,
`started_at`, `finished_at`, `error_message` (timestamps abstracted
as `Option Nat`). -/
structure TaskRec where
  status : TaskStatus
  startedAt : Option Nat
  finishedAt : Option Nat
  errorMessage : String
deriving DecidableEq, Repr

/-- `AutomationTaskViewSet.start_enhanced` (`runner/views.py` lines
86-100): startable from `PENDING`, `FAILED`, `CAPTCHA_DETECTED` or
`PAUSED`; on success sets status `PENDING` and clears `started_at`
and `finished_at` (lines 93-96; `error_message` is not touched). -/
def start_enhanced (t : TaskRec) : Except String TaskRec :=
  if t.status = PENDING ∨ t.status = FAILED ∨
     t.status = CAPTCHA_DETECTED ∨ t.status = PAUSED then
    Except.ok { t with status := PENDING, startedAt := none, finishedAt := none }
  else
    Except.error "Task not in a startable state."

/-- `AutomationTaskViewSet.pause` (`runner/views.py` lines 109-117). -/
def pauseTask (t : TaskRec) : Except String TaskRec :=
  if t.status = RUNNING then Except.ok { t with status := PAUSED }
  else Except.error "Task is not running."

/-- `AutomationTaskViewSet.resume` (`runner/views.py` lines 126-135). -/
def resumeTask (t : TaskRec) : Except String TaskRec :=
  if t.status = PAUSED then Except.ok { t with status := PENDING }
  else Except.error "Task is not paused."

/-- `AutomationTaskViewSet.cancel` (`runner/views.py` lines 144-153):
rejected for `COMPLETED`/`FAILED`/`CANCELLED`, otherwise sets
`CANCELLED` and stamps `finished_at`. -/
def cancelTask (now : Nat) (t : TaskRec) : Except String TaskRec :=
  if t.status = COMPLETED ∨ t.status = FAILED ∨ t.status = CANCELLED then
    Except.error "Task already finished or cancelled."
  else
    Except.ok { t with status := CANCELLED, finishedAt := some now }

/-! ## Crawl orchestrator (`runner/selenium_service.py` lines 401-519)

The loop of `SeleniumAutomationService.run_automation`; the queue and
visited-set discipline is identical in
`EnhancedSeleniumAutomationService.run_enhanced_automation`
(`runner/enhanced_selenium_service.py` lines 401-454).  The page
environment abstracts, per URL: whether `driver.get` raises, whether
the page-event creation succeeds, whether the CAPTCHA handler reports
a detection, and which (already filtered) links `_extract_links`
returns. -/

structure FetchResult where
  navOk : Bool
  eventOk : Bool
  captcha : Bool
  links : List String

/-- The per-link push of the crawl loop (`selenium_service.py` lines
461-463 / `enhanced_selenium_service.py` lines 452-454): append only
when the link is not in the *visited* set and fewer than 100 entries
are pending. -/
def pushLink (visited queue : List String) (link : String) : List String :=
  if link ∈ visited ∨ 100 ≤ queue.length then queue else queue ++ [link]

/-- Pushing a whole extracted-link list, left to right. -/
def pushLinks (visited queue links : List String) : List String :=
  links.foldl (fun q link => pushLink visited q link) queue

/-- Mutable state of one `run_automation` execution.  `visitSeq` and
`navErrors` instrument the trace: `visitSeq` records, in order, the
URLs that pass the visited-set check (each of which triggers exactly
one `driver.get` attempt), and `navErrors` counts the error increments
coming from a raising `driver.get`; `errors` is the source's counter. -/
structure CrawlState where
  urlsToVisit : List String
  visitedUrls : List String
  visitSeq : List String
  pagesVisited : Nat
  errors : Nat
  navErrors : Nat
  captchaDetections : Nat
  status : TaskStatus
deriving Repr

/-- One iteration body of the `while` loop of `run_automation`
(`selenium_service.py` lines 419-481), after the head `u` of the
queue has been popped. `.inl` is `continue` (or falling through to the
next iteration), `.inr` is the `break` taken on a CAPTCHA detection:

* `u` already visited → skip (lines 423-424);
* `driver.get` raises (timeout / driver error) → count an error and
  continue (lines 431, 468-481);
* page-event creation fails → count an error and continue (449-451);
* CAPTCHA handled → count the detection, mark the task
  `CAPTCHA_DETECTED`, break (lines 332-362, 453-456);
* otherwise push the extracted links while below the page limit
  (lines 459-463). -/
def crawlStep (env : String → FetchResult) (maxPages : Nat)
    (s : CrawlState) (u : String) (rest : List String) :
    CrawlState ⊕ CrawlState :=
  if u ∈ s.visitedUrls then Sum.inl { s with urlsToVisit := rest }
  else
    let s1 := { s with
      urlsToVisit := rest
      visitedUrls := u :: s.visitedUrls
      visitSeq := s.visitSeq ++ [u] }
    let f := env u
    if f.navOk = false then
      Sum.inl { s1 with errors := s1.errors + 1, navErrors := s1.navErrors + 1 }
    else
      let s2 := { s1 with pagesVisited := s1.pagesVisited + 1 }
      if f.eventOk = false then
        Sum.inl { s2 with errors := s2.errors + 1 }
      else if f.captcha then
        Sum.inr { s2 with
          captchaDetections := s2.captchaDetections + 1
          status := CAPTCHA_DETECTED }
      else
        Sum.inl (if s2.pagesVisited < maxPages then
          { s2 with
            urlsToVisit := pushLinks s2.visitedUrls s2.urlsToVisit f.links }
        else s2)

/-- The `while urls_to_visit and pages_visited < max_pages` loop
(`selenium_service.py` lines 418-481), fuel-indexed: any real
execution is the result for a large enough fuel, and the proved
invariants hold for every fuel. -/
def crawlLoop (env : String → FetchResult) (maxPages : Nat) :
    Nat → CrawlState → CrawlState
  | 0, s => s
  | fuel + 1, s =>
    match s.urlsToVisit with
    | [] => s
    | u :: rest =>
      if s.pagesVisited < maxPages then
        match crawlStep env maxPages s u rest with
        | Sum.inl next => crawlLoop env maxPages fuel next
        | Sum.inr halted => halted
      else s

/-- Loop-entry state (`run_automation` lines 407-416): status RUNNING,
queue seeded with the start URL, all counters zero. -/
def initCrawl (startUrl : String) : CrawlState :=
  { urlsToVisit := [startUrl], visitedUrls := [], visitSeq := []
  , pagesVisited := 0, errors := 0, navErrors := 0
  , captchaDetections := 0, status := RUNNING }

/-- `run_automation` after the loop (lines 483-490): a run that did
not halt on a CAPTCHA is marked `COMPLETED`. -/
def runAutomation (fuel : Nat) (env : String → FetchResult)
    (maxPages : Nat) (startUrl : String) : CrawlState :=
  let s := crawlLoop env maxPages fuel (initCrawl startUrl)
  if s.status = CAPTCHA_DETECTED then s else { s with status := COMPLETED }

/-! ## Stats finalization (`selenium_service.py` lines 493-502,
`runner/models.py` lines 237-241) -/

/-- The `AutomationStats` fields written at finalization, with the
Python-level integer arithmetic (the subtraction on line 495 is on
ordinary ints, so it can go negative). -/
structure StatsRec where
  totalRequests : Int
  successfulRequests : Int
  failedRequests : Int
  captchaDetections : Int
deriving DecidableEq, Repr

/-- `run_automation` lines 494-497: `total_requests = pages_visited`,
`successful_requests = pages_visited - errors`,
`failed_requests = errors`. -/
def finalizeStats (s : CrawlState) : StatsRec :=
  { totalRequests := (s.pagesVisited : Int)
  , successfulRequests := (s.pagesVisited : Int) - (s.errors : Int)
  , failedRequests := (s.errors : Int)
  , captchaDetections := (s.captchaDetections : Int) }

/-- `AutomationStats.success_rate` (`runner/models.py` lines 237-241):
`0.0` when `total_requests` is zero, else
`successful_requests / total_requests * 100`. -/
def successRate (st : StatsRec) : ℚ :=
  if st.totalRequests = 0 then 0
  else (st.successfulRequests : ℚ) / (st.totalRequests : ℚ) * 100

/-! ## Link filter (`enhanced_selenium_service.py` lines 358-374) -/

def skip_extensions : List String :=
  [".pdf", ".doc", ".docx", ".xls", ".xlsx", ".zip", ".rar"]

def skip_patterns : List String :=
  ["#", "javascript:", "mailto:", "tel:"]

/-- `pat in s` of Python: `pat` occurs as a contiguous substring. -/
def containsSub (s pat : String) : Bool :=
  (List.range (s.toList.length + 1)).any
    (fun i => decide ((s.toList.drop i).take pat.toList.length = pat.toList))

/-- `EnhancedSeleniumAutomationService._should_follow_link`: same
domain, URL (lowercased) not ending in a skip extension, and no skip
pattern occurring in it. -/
def should_follow_link (url : String) (netloc : String)
    (currentDomain : String) : Bool :=
  if netloc ≠ currentDomain then false
  else if skip_extensions.any (fun ext => url.toLower.endsWith ext) then false
  else if skip_patterns.any (fun pat => containsSub url.toLower pat) then false
  else true

/-! ## Alert rules (`runner/monitoring.py` lines 17-41) -/

/-- `MonitoringRule` state: the `enabled` flag and the `last_triggered`
task id (`None` initially). -/
structure MonitoringRule where
  enabled : Bool
  lastTriggered : Option Nat
deriving DecidableEq, Repr

/-- `MonitoringRule.check` (lines 27-41): a disabled rule returns
`False`; a raising condition is caught and nothing fires; otherwise
the action fires iff the condition holds and `last_triggered` differs
from the task id, in which case `last_triggered` is set to it.
Returns the updated rule and whether the action fired. -/
def MonitoringRule.check (r : MonitoringRule) (taskId : Nat)
    (cond : Except Unit Bool) : MonitoringRule × Bool :=
  if r.enabled = false then (r, false)
  else
    match cond with
    | Except.error _ => (r, false)
    | Except.ok result =>
      if result = true ∧ r.lastTriggered ≠ some taskId then
        ({ r with lastTriggered := some taskId }, true)
      else (r, false)

/-! ## Concrete inputs used by the development -/

/-- The first entry of the pattern table (`recaptcha_v2`). -/
def recaptchaV2 : PatternSet := detection_patterns.headI

/-- A scenario pattern set: two selectors, three text patterns, no
iframe patterns, weight 1. -/
def scenarioPats : PatternSet :=
  { name := "scenario", selectors := ["sel-a", "sel-b"]
  , text_patterns := ["text-a", "text-b", "text-c"]
  , iframe_patterns := [], weight := 1 }

/-- Signals for the 2-of-2 / 1-of-3 / 0-of-0 scenario: every selector
matches, only the first text pattern matches, no iframes. -/
def scenarioSig : PageSignals :=
  { selectorHit := fun _ => true
  , textHit := fun p => p == "text-a"
  , iframeSrcs := [], srcHit := fun _ _ => false }

/-- A page where every selector and text pattern matches and three
iframes each match an iframe pattern. -/
def sigAllHits : PageSignals :=
  { selectorHit := fun _ => true
  , textHit := fun _ => true
  , iframeSrcs := ["frame-1", "frame-2", "frame-3"]
  , srcHit := fun _ _ => true }

/-- A page with no matching signal at all. -/
def sigNoHits : PageSignals :=
  { selectorHit := fun _ => false
  , textHit := fun _ => false
  , iframeSrcs := [], srcHit := fun _ _ => false }

/-- A page environment where every navigation raises. -/
def envAllNavFail : String → FetchResult :=
  fun _ => { navOk := false, eventOk := true, captcha := false, links := [] }

/-- A page environment where the start page loads and links to two
pages whose navigations raise. -/
def envOneGoodTwoBad : String → FetchResult :=
  fun u =>
    if u = "http://site/a" then
      { navOk := true, eventOk := true, captcha := false
      , links := ["http://site/b", "http://site/c"] }
    else
      { navOk := false, eventOk := true, captcha := false, links := [] }

/-- Per-type scoring where the first type scores 0.9 and every later
type raises while its signals are gathered. -/
def scoreFirstThenRaise : String → Except Unit ℚ :=
  fun t => if t = "recaptcha_v2" then Except.ok (9 / 10) else Except.error ()

/-! ## Scorer lemmas -/

/-- A single `if matches > 0` contribution of `_calculate_confidence`
equals `share * (matches / patterns_checked)` unconditionally. -/
theorem confTerm_eq (m n : Nat) (a : ℚ) :
    (if 0 < m then ((m : ℚ) / (n : ℚ)) * a else 0) = a * ratioOf m n := by
  unfold ratioOf
  by_cases h : 0 < m
  · simp [h, mul_comm]
  · simp [Nat.eq_zero_of_not_pos h]

/-- C1: for every challenge type, the confidence score equals
`weight * (0.4*selector_ratio + 0.3*text_ratio + 0.3*frame_ratio)`
with each ratio `matches_found / patterns_checked` (0 for an empty
pattern list); and in the 2-of-2 selectors, 1-of-3 texts, 0-of-0
frames, weight-1 scenario the score is `0.5`, which is below the
`0.7` threshold, so detection does not fire. -/
theorem C1_confidence_score_formula :
    (∀ (pats : PatternSet) (sig : PageSignals),
        calculate_confidence pats sig =
          pats.weight *
            (0.4 * ratioOf (selector_matches sig pats) pats.selectors.length +
             0.3 * ratioOf (text_matches sig pats) pats.text_patterns.length +
             0.3 * ratioOf (iframe_matches sig pats) pats.iframe_patterns.length)) ∧
    (∀ (pats : PatternSet) (sig : PageSignals),
        pats.weight = 1 →
        selector_matches sig pats = 2 → pats.selectors.length = 2 →
        text_matches sig pats = 1 → pats.text_patterns.length = 3 →
        iframe_matches sig pats = 0 → pats.iframe_patterns.length = 0 →
        calculate_confidence pats sig = 1 / 2 ∧
        calculate_confidence pats sig < confidence_threshold ∧
        (detectLoop initDetection
            [(pats.name, Except.ok (calculate_confidence pats sig))]).detected
          = false) := by
  constructor
  · intro pats sig
    simp only [calculate_confidence, confTerm_eq]
    ring
  · intro pats sig hw hsm hsl htm htl hfm hfl
    have hc : calculate_confidence pats sig = 1 / 2 := by
      simp only [calculate_confidence, hsm, hsl, htm, htl, hfm, hfl, hw]
      norm_num
    refine ⟨hc, ?_, ?_⟩
    · rw [hc]
      norm_num [confidence_threshold]
    · rw [hc]
      simp only [detectLoop, updateDetection, initDetection]
      norm_num [confidence_threshold]

/-- Witness: the C1 scenario hypotheses hold at `scenarioPats` /
`scenarioSig`, and the conclusions follow by the theorem. -/
theorem C1_confidence_score_formula_witness :
    calculate_confidence scenarioPats scenarioSig = 1 / 2 ∧
    calculate_confidence scenarioPats scenarioSig < confidence_threshold ∧
    (detectLoop initDetection
        [(scenarioPats.name,
          Except.ok (calculate_confidence scenarioPats scenarioSig))]).detected
      = false :=
  C1_confidence_score_formula.2 scenarioPats scenarioSig
    (by norm_num [scenarioPats]) (by decide) (by decide) (by decide)
    (by decide) (by decide) (by decide)

/-- A single contribution of `_calculate_confidence` is nonnegative. -/
theorem confTerm_nonneg (m n : Nat) (a : ℚ) (ha : 0 ≤ a) :
    0 ≤ (if 0 < m then ((m : ℚ) / (n : ℚ)) * a else 0) := by
  split_ifs
  · positivity
  · exact le_refl 0

/-- A single contribution is at most its share `a` whenever the match
count does not exceed the pattern-list length. -/
theorem confTerm_le (m n : Nat) (hmn : m ≤ n) (a : ℚ) (ha : 0 ≤ a) :
    (if 0 < m then ((m : ℚ) / (n : ℚ)) * a else 0) ≤ a := by
  split_ifs with h
  · have hn : (0 : ℚ) < n := by exact_mod_cast lt_of_lt_of_le h hmn
    have hr : (m : ℚ) / n ≤ 1 := by
      rw [div_le_one hn]
      exact_mod_cast hmn
    calc (m : ℚ) / n * a ≤ 1 * a := mul_le_mul_of_nonneg_right hr ha
      _ = a := one_mul a
  · exact ha

/-- The score is nonnegative for a nonnegative type weight. -/
theorem calculate_confidence_nonneg (pats : PatternSet) (sig : PageSignals)
    (hw : 0 ≤ pats.weight) : 0 ≤ calculate_confidence pats sig := by
  simp only [calculate_confidence]
  refine mul_nonneg ?_ hw
  have h1 := confTerm_nonneg (selector_matches sig pats)
    pats.selectors.length (0.4 : ℚ) (by norm_num)
  have h2 := confTerm_nonneg (text_matches sig pats)
    pats.text_patterns.length (0.3 : ℚ) (by norm_num)
  have h3 := confTerm_nonneg (iframe_matches sig pats)
    pats.iframe_patterns.length (0.3 : ℚ) (by norm_num)
  exact add_nonneg (add_nonneg h1 h2) h3

/-- The score is at most 1 for a weight in `[0,1]`, provided the
number of matching iframes does not exceed the number of iframe
patterns (the selector and text counts are bounded by construction). -/
theorem calculate_confidence_le_one (pats : PatternSet) (sig : PageSignals)
    (hw0 : 0 ≤ pats.weight) (hw1 : pats.weight ≤ 1)
    (hf : iframe_matches sig pats ≤ pats.iframe_patterns.length) :
    calculate_confidence pats sig ≤ 1 := by
  simp only [calculate_confidence]
  have h1 := confTerm_le (selector_matches sig pats) pats.selectors.length
    (by simpa [selector_matches] using
      List.length_filter_le sig.selectorHit pats.selectors) (0.4 : ℚ) (by norm_num)
  have h2 := confTerm_le (text_matches sig pats) pats.text_patterns.length
    (by simpa [text_matches] using
      List.length_filter_le sig.textHit pats.text_patterns) (0.3 : ℚ) (by norm_num)
  have h3 := confTerm_le (iframe_matches sig pats) pats.iframe_patterns.length
    hf (0.3 : ℚ) (by norm_num)
  have hsum := add_le_add (add_le_add h1 h2) h3
  have hsum1 : (0.4 : ℚ) + 0.3 + 0.3 = 1 := by norm_num
  rw [hsum1] at hsum
  calc _ ≤ (1 : ℚ) * 1 := mul_le_mul hsum hw1 hw0 zero_le_one
    _ = 1 := one_mul 1

/-- Weights of the shipped pattern table lie in `[0,1]`. -/
theorem detection_patterns_weight (pats : PatternSet)
    (h : pats ∈ detection_patterns) : 0 ≤ pats.weight ∧ pats.weight ≤ 1 := by
  simp only [detection_patterns] at h
  fin_cases h <;> norm_num

/-- C5 counterexample: on a page where all `recaptcha_v2` selectors
and text patterns match and three iframes each match an iframe
pattern, the computed confidence is `1.15 > 1` — the iframe term
divides the count of matching iframes by the number of iframe
patterns, so the score is not confined to `[0,1]`. -/
theorem C5_confidence_counterexample :
    recaptchaV2 ∈ detection_patterns ∧
    calculate_confidence recaptchaV2 sigAllHits = 23 / 20 ∧
    ¬ calculate_confidence recaptchaV2 sigAllHits ≤ 1 := by
  have hsm : selector_matches sigAllHits recaptchaV2 = 8 := by decide
  have hsl : recaptchaV2.selectors.length = 8 := by decide
  have htm : text_matches sigAllHits recaptchaV2 = 5 := by decide
  have htl : recaptchaV2.text_patterns.length = 5 := by decide
  have hfm : iframe_matches sigAllHits recaptchaV2 = 3 := by decide
  have hfl : recaptchaV2.iframe_patterns.length = 2 := by decide
  have hw : recaptchaV2.weight = 1 := by
    norm_num [recaptchaV2, detection_patterns]
  have hc : calculate_confidence recaptchaV2 sigAllHits = 23 / 20 := by
    simp only [calculate_confidence, hsm, hsl, htm, htl, hfm, hfl, hw]
    norm_num
  refine ⟨List.mem_cons_self _ _, hc, ?_⟩
  rw [hc]
  norm_num

/-- C5 amended: for every challenge type of the table and every
signal snapshot, the confidence score is nonnegative, and it is at
most 1 whenever the number of matching iframes does not exceed the
number of iframe patterns of the type (the bound the spec implicitly
assumed; it fails only through the iframe term). -/
theorem C5_confidence_range_amended :
    ∀ pats ∈ detection_patterns, ∀ sig : PageSignals,
      0 ≤ calculate_confidence pats sig ∧
      (iframe_matches sig pats ≤ pats.iframe_patterns.length →
        calculate_confidence pats sig ≤ 1) := by
  intro pats hp sig
  obtain ⟨hw0, hw1⟩ := detection_patterns_weight pats hp
  exact ⟨calculate_confidence_nonneg pats sig hw0,
    fun hf => calculate_confidence_le_one pats sig hw0 hw1 hf⟩

/-- Witness for C5's amended statement at the `recaptcha_v2` entry
and the all-quiet page. -/
theorem C5_confidence_range_amended_witness :
    0 ≤ calculate_confidence recaptchaV2 sigNoHits ∧
    calculate_confidence recaptchaV2 sigNoHits ≤ 1 := by
  obtain ⟨h0, h1⟩ :=
    C5_confidence_range_amended recaptchaV2 (List.mem_cons_self _ _) sigNoHits
  exact ⟨h0, h1 (by decide)⟩

/-- C10 counterexample: if the first type scores `0.9` and gathering
the second type's signals raises, `detect_captcha` returns the
partially accumulated result — `detected = true` with type
`recaptcha_v2` and confidence `0.9` — not the not-detected default. -/
theorem C10_detection_error_counterexample :
    (detect_captcha scoreFirstThenRaise).detected = true ∧
    (detect_captcha scoreFirstThenRaise).ctype = "recaptcha_v2" ∧
    (detect_captcha scoreFirstThenRaise).confidence = 9 / 10 := by
  have h : detect_captcha scoreFirstThenRaise =
      { detected := true, ctype := "recaptcha_v2", confidence := 9 / 10 } := by
    simp only [detect_captcha, captcha_types, scoreFirstThenRaise, List.map]
    norm_num [detectLoop, updateDetection, initDetection, confidence_threshold]
  rw [h]
  exact ⟨rfl, rfl, rfl⟩

/-- C10 amended: an exception during signal gathering is caught and
`detect_captcha` returns the result accumulated over the error-free
prefix of the type table; in particular, when the very first type's
gathering raises, the not-detected default (`detected = false`,
confidence `0`, type `unknown`) is returned — but a type scored
before the failure is kept, detection state included. -/
theorem C10_detection_error_amended :
    (∀ (pre : List (String × Except Unit ℚ)) (t : String)
        (post : List (String × Except Unit ℚ)) (r : DetectionResult),
        (∀ p ∈ pre, ∃ c, p.2 = Except.ok c) →
        detectLoop r (pre ++ (t, Except.error ()) :: post) = detectLoop r pre) ∧
    (∀ score : String → Except Unit ℚ,
        score "recaptcha_v2" = Except.error () →
        detect_captcha score = initDetection) := by
  constructor
  · intro pre
    induction pre with
    | nil => intro t post r _; rfl
    | cons hd tl ih =>
      intro t post r hok
      obtain ⟨c, hc⟩ := hok hd (List.mem_cons_self hd tl)
      obtain ⟨t0, e0⟩ := hd
      simp only at hc
      subst hc
      simp only [List.cons_append, detectLoop]
      exact ih t post (updateDetection r t0 c)
        (fun p hp => hok p (List.mem_cons_of_mem _ hp))
  · intro score h
    simp only [detect_captcha, captcha_types, List.map, h, detectLoop]

/-- Witness for C10's amended statement: a one-entry error-free
prefix followed by a raising type, and an all-raising scorer. -/
theorem C10_detection_error_amended_witness :
    detectLoop initDetection
        ([("recaptcha_v2", Except.ok (1 : ℚ))] ++
          ("hcaptcha", Except.error ()) :: []) =
      detectLoop initDetection [("recaptcha_v2", Except.ok (1 : ℚ))] ∧
    detect_captcha (fun _ => Except.error ()) = initDetection :=
  ⟨C10_detection_error_amended.1 [("recaptcha_v2", Except.ok 1)] "hcaptcha" []
      initDetection
      (by
        intro p hp
        rw [List.mem_singleton] at hp
        subst hp
        exact ⟨1, rfl⟩),
   C10_detection_error_amended.2 (fun _ => Except.error ()) rfl⟩

/-! ## Task state operation theorems -/

/-- C2 counterexample: a `FAILED` task — terminal per the claim — is
accepted by `start_enhanced` and moved to `PENDING`, so not every
transition out of a terminal state fails. -/
theorem C2_terminal_state_counterexample :
    start_enhanced { status := FAILED, startedAt := some 1
                   , finishedAt := some 2, errorMessage := "boom" } =
      Except.ok { status := PENDING, startedAt := none
                , finishedAt := none, errorMessage := "boom" } ∧
    PENDING ≠ FAILED :=
  ⟨rfl, by decide⟩

/-- C2 amended: the state-validated API operations never move a
`COMPLETED` or `CANCELLED` task — start, pause, resume and cancel all
fail with an error and leave the record unchanged; a `FAILED` task
likewise rejects pause, resume and cancel, but the explicit restart
(`start_enhanced`) moves it to `PENDING`.  (`run_automation` itself
performs no status check; terminal tasks are protected only by these
API guards.) -/
theorem C2_terminal_state_amended :
    ∀ t : TaskRec,
      (t.status = COMPLETED ∨ t.status = CANCELLED →
        start_enhanced t = Except.error "Task not in a startable state." ∧
        pauseTask t = Except.error "Task is not running." ∧
        resumeTask t = Except.error "Task is not paused." ∧
        ∀ now, cancelTask now t =
          Except.error "Task already finished or cancelled.") ∧
      (t.status = FAILED →
        pauseTask t = Except.error "Task is not running." ∧
        resumeTask t = Except.error "Task is not paused." ∧
        (∀ now, cancelTask now t =
          Except.error "Task already finished or cancelled.") ∧
        start_enhanced t =
          Except.ok { t with status := PENDING,
                             startedAt := none, finishedAt := none }) := by
  intro t
  constructor
  · rintro (h | h) <;>
      exact ⟨by simp [start_enhanced, h], by simp [pauseTask, h],
             by simp [resumeTask, h], fun now => by simp [cancelTask, h]⟩
  · intro h
    exact ⟨by simp [pauseTask, h], by simp [resumeTask, h],
           fun now => by simp [cancelTask, h], by simp [start_enhanced, h]⟩

/-- Witness for C2's amended statement at a `COMPLETED` and a
`FAILED` task. -/
theorem C2_terminal_state_amended_witness :
    start_enhanced { status := COMPLETED, startedAt := none
                   , finishedAt := some 3, errorMessage := "" } =
      Except.error "Task not in a startable state." ∧
    start_enhanced { status := FAILED, startedAt := some 1
                   , finishedAt := some 2, errorMessage := "x" } =
      Except.ok { status := PENDING, startedAt := none
                , finishedAt := none, errorMessage := "x" } :=
  ⟨((C2_terminal_state_amended _).1 (Or.inl rfl)).1,
   ((C2_terminal_state_amended
      { status := FAILED, startedAt := some 1
      , finishedAt := some 2, errorMessage := "x" }).2 rfl).2.2.2⟩

/-- C9 counterexample: restarting a `CAPTCHA_DETECTED` task moves it
to `PENDING` and clears `started_at`/`finished_at`, but the non-empty
`error_message` is left in place — not all three fields are reset. -/
theorem C9_restart_counterexample :
    start_enhanced { status := CAPTCHA_DETECTED, startedAt := some 5
                   , finishedAt := some 9, errorMessage := "challenge" } =
      Except.ok { status := PENDING, startedAt := none
                , finishedAt := none, errorMessage := "challenge" } ∧
    "challenge" ≠ "" :=
  ⟨rfl, by decide⟩

/-- C9 amended: restart from `FAILED`, `CAPTCHA_DETECTED` or `PAUSED`
moves the task to `PENDING` and resets `started_at` and `finished_at`;
`error_message` is not touched. -/
theorem C9_restart_amended :
    ∀ t : TaskRec,
      t.status = FAILED ∨ t.status = CAPTCHA_DETECTED ∨ t.status = PAUSED →
      start_enhanced t =
        Except.ok { t with status := PENDING,
                           startedAt := none, finishedAt := none } := by
  intro t h
  rcases h with h | h | h <;> simp [start_enhanced, h]

/-- Witness for C9's amended statement at a `PAUSED` task. -/
theorem C9_restart_amended_witness :
    start_enhanced { status := PAUSED, startedAt := some 1
                   , finishedAt := none, errorMessage := "e" } =
      Except.ok { status := PENDING, startedAt := none
                , finishedAt := none, errorMessage := "e" } :=
  C9_restart_amended _ (Or.inr (Or.inr rfl))

/-! ## Alert-rule theorems -/

/-- A rule whose `last_triggered` already equals the task id never
fires again for that task. -/
theorem check_no_refire (r : MonitoringRule) (t : Nat)
    (cond : Except Unit Bool) (h : r.lastTriggered = some t) :
    (r.check t cond).2 = false := by
  unfold MonitoringRule.check
  split_ifs with he
  · rfl
  · rcases cond with e | b
    · rfl
    · simp [h]

/-- When the action fires, `last_triggered` is set to the task id. -/
theorem check_fired_sets (r : MonitoringRule) (t : Nat)
    (cond : Except Unit Bool) (h : (r.check t cond).2 = true) :
    (r.check t cond).1.lastTriggered = some t := by
  unfold MonitoringRule.check at h ⊢
  by_cases he : r.enabled = false
  · rw [if_pos he] at h
    exact absurd h (by simp)
  · rw [if_neg he] at h ⊢
    rcases cond with e | b
    · exact absurd h (by simp)
    · dsimp only at h ⊢
      by_cases hc : b = true ∧ r.lastTriggered ≠ some t
      · rw [if_pos hc]
      · rw [if_neg hc] at h
        exact absurd h (by simp)

/-- A fired rule keeps its `enabled` flag. -/
theorem check_keeps_enabled (r : MonitoringRule) (t : Nat)
    (cond : Except Unit Bool) : (r.check t cond).1.enabled = r.enabled := by
  unfold MonitoringRule.check
  split_ifs with he
  · rfl
  · rcases cond with e | b
    · rfl
    · by_cases hc : b = true ∧ r.lastTriggered ≠ some t
      · simp [hc]
      · simp [hc]

/-- C8: a disabled rule never fires regardless of its condition; a
rule whose `last_triggered` already equals the task id does not fire;
and once a check fired for a task, re-checking the updated rule with
the unchanged task id fires nothing, whatever the condition then
evaluates to (including raising). -/
theorem C8_alert_fires_once :
    ∀ (r : MonitoringRule) (t : Nat) (cond : Except Unit Bool),
      (r.enabled = false → (r.check t cond).2 = false) ∧
      (r.lastTriggered = some t → (r.check t cond).2 = false) ∧
      ((r.check t cond).2 = true →
        ∀ cond2 : Except Unit Bool,
          ((r.check t cond).1.check t cond2).2 = false) := by
  intro r t cond
  refine ⟨?_, check_no_refire r t cond, ?_⟩
  · intro h
    unfold MonitoringRule.check
    simp [h]
  · intro hfired cond2
    exact check_no_refire _ t cond2 (check_fired_sets r t cond hfired)

/-- Witness for C8 at concrete rules: a disabled rule, a rule already
triggered for task 7, and a fresh enabled rule that fires once. -/
theorem C8_alert_fires_once_witness :
    (MonitoringRule.check { enabled := false, lastTriggered := none } 7
        (Except.ok true)).2 = false ∧
    (MonitoringRule.check { enabled := true, lastTriggered := some 7 } 7
        (Except.ok true)).2 = false ∧
    ((MonitoringRule.check { enabled := true, lastTriggered := none } 7
        (Except.ok true)).1.check 7 (Except.ok true)).2 = false :=
  ⟨(C8_alert_fires_once { enabled := false, lastTriggered := none } 7
      (Except.ok true)).1 rfl,
   (C8_alert_fires_once { enabled := true, lastTriggered := some 7 } 7
      (Except.ok true)).2.1 rfl,
   (C8_alert_fires_once { enabled := true, lastTriggered := none } 7
      (Except.ok true)).2.2 (by decide) (Except.ok true)⟩

/-! ## Crawl loop invariants -/

/-- Loop invariant of `run_automation`: the page counter respects the
limit, the sequence of visited URLs has no duplicates, every entry of
that sequence is in the visited set, and page count plus navigation
errors equals the number of navigation attempts. -/
def CrawlInv (maxPages : Nat) (s : CrawlState) : Prop :=
  s.pagesVisited ≤ maxPages ∧
  s.visitSeq.Nodup ∧
  (∀ u ∈ s.visitSeq, u ∈ s.visitedUrls) ∧
  s.pagesVisited + s.navErrors = s.visitSeq.length

/-- The invariant holds at loop entry. -/
theorem initCrawl_inv (maxPages : Nat) (startUrl : String) :
    CrawlInv maxPages (initCrawl startUrl) := by
  refine ⟨Nat.zero_le maxPages, List.nodup_nil, ?_, rfl⟩
  intro v hv
  exact absurd hv (List.not_mem_nil v)

/-- One loop iteration preserves the invariant, whether it continues
or breaks. -/
theorem crawlStep_inv (env : String → FetchResult) (maxPages : Nat)
    (s : CrawlState) (u : String) (rest : List String)
    (hlt : s.pagesVisited < maxPages) (h : CrawlInv maxPages s) :
    CrawlInv maxPages (Sum.elim id id (crawlStep env maxPages s u rest)) := by
  obtain ⟨hp, hnd, hsub, hcnt⟩ := h
  unfold crawlStep
  by_cases hv : u ∈ s.visitedUrls
  · rw [if_pos hv]
    exact ⟨hp, hnd, hsub, hcnt⟩
  · rw [if_neg hv]
    dsimp only
    have hnd1 : (s.visitSeq ++ [u]).Nodup := by
      rw [List.nodup_append]
      refine ⟨hnd, List.nodup_singleton u, ?_⟩
      intro a ha hb
      rw [List.mem_singleton] at hb
      subst hb
      exact hv (hsub a ha)
    have hsub1 : ∀ v ∈ s.visitSeq ++ [u], v ∈ u :: s.visitedUrls := by
      intro v hvmem
      rcases List.mem_append.1 hvmem with hvv | hvv
      · exact List.mem_cons_of_mem _ (hsub v hvv)
      · rw [List.mem_singleton] at hvv
        subst hvv
        exact List.mem_cons_self _ _
    have hlen1 : (s.visitSeq ++ [u]).length = s.visitSeq.length + 1 := by
      simp
    by_cases hnav : (env u).navOk = false
    · rw [if_pos hnav]
      refine ⟨hp, hnd1, hsub1, ?_⟩
      simp only [Sum.elim_inl, id_eq, List.length_append, List.length_singleton]
      omega
    · rw [if_neg hnav]
      by_cases hev : (env u).eventOk = false
      · rw [if_pos hev]
        refine ⟨hlt, hnd1, hsub1, ?_⟩
        simp only [Sum.elim_inl, id_eq, List.length_append, List.length_singleton]
        omega
      · rw [if_neg hev]
        by_cases hcap : (env u).captcha = true
        · rw [if_pos hcap]
          refine ⟨hlt, hnd1, hsub1, ?_⟩
          simp only [Sum.elim_inr, id_eq, List.length_append, List.length_singleton]
          omega
        · rw [if_neg hcap]
          by_cases hagain : s.pagesVisited + 1 < maxPages
          · rw [if_pos hagain]
            refine ⟨hlt, hnd1, hsub1, ?_⟩
            simp only [Sum.elim_inl, id_eq, List.length_append,
              List.length_singleton]
            omega
          · rw [if_neg hagain]
            refine ⟨hlt, hnd1, hsub1, ?_⟩
            simp only [Sum.elim_inl, id_eq, List.length_append,
              List.length_singleton]
            omega

/-- The whole loop preserves the invariant, for every fuel. -/
theorem crawlLoop_inv (env : String → FetchResult) (maxPages : Nat) :
    ∀ (fuel : Nat) (s : CrawlState), CrawlInv maxPages s →
      CrawlInv maxPages (crawlLoop env maxPages fuel s) := by
  intro fuel
  induction fuel with
  | zero => intro s h; exact h
  | succ fuel ih =>
    intro s h
    simp only [crawlLoop]
    rcases hq : s.urlsToVisit with _ | ⟨u, rest⟩
    · exact h
    · dsimp only
      by_cases hlt : s.pagesVisited < maxPages
      · rw [if_pos hlt]
        have hstep := crawlStep_inv env maxPages s u rest hlt h
        cases hcs : crawlStep env maxPages s u rest with
        | inl nxt =>
          rw [hcs] at hstep
          exact ih nxt hstep
        | inr halted =>
          rw [hcs] at hstep
          exact hstep
      · rw [if_neg hlt]
        exact h

/-- The invariant transfers through the post-loop status update. -/
theorem runAutomation_inv (fuel : Nat) (env : String → FetchResult)
    (maxPages : Nat) (startUrl : String) :
    CrawlInv maxPages (runAutomation fuel env maxPages startUrl) := by
  have h := crawlLoop_inv env maxPages fuel (initCrawl startUrl)
    (initCrawl_inv maxPages startUrl)
  unfold runAutomation
  dsimp only
  split_ifs
  · exact h
  · exact h

/-- C3: for every fuel, page environment, page limit and start URL,
the number of pages visited by `run_automation` never exceeds
`max_pages`: the loop runs only while `pages_visited < max_pages` and
each iteration increments the counter at most once. -/
theorem C3_pages_visited_le_max_pages :
    ∀ (fuel : Nat) (env : String → FetchResult) (maxPages : Nat)
      (startUrl : String),
      (runAutomation fuel env maxPages startUrl).pagesVisited ≤ maxPages :=
  fun fuel env maxPages startUrl =>
    (runAutomation_inv fuel env maxPages startUrl).1

/-- C4 counterexample: a URL that is already pending in the frontier
(pushed but not yet visited) is appended again — the push dedup
consults only the visited set, not the set of previously pushed URLs,
so "push is a no-op exactly when the URL was already pushed" fails. -/
theorem C4_frontier_push_counterexample :
    pushLink [] ["http://site/x"] "http://site/x" =
      ["http://site/x", "http://site/x"] ∧
    pushLink [] ["http://site/x"] "http://site/x" ≠ ["http://site/x"] :=
  ⟨rfl, by decide⟩

/-- C4 amended: a push is a no-op exactly when the link is already in
the *visited* set or 100 entries are pending; the extraction-stage
filter rejects a link iff its domain differs, its lowercased URL ends
in a skip-list extension, or a skip pattern occurs in it; and although
the queue may hold duplicates, the loop skips already-visited URLs at
pop time, so no URL is visited twice within one run. -/
theorem C4_frontier_amended :
    (∀ (visited queue : List String) (link : String),
        pushLink visited queue link = queue ↔
          link ∈ visited ∨ 100 ≤ queue.length) ∧
    (∀ url netloc currentDomain : String,
        should_follow_link url netloc currentDomain = false ↔
          (netloc ≠ currentDomain ∨
           (∃ ext ∈ skip_extensions, url.toLower.endsWith ext = true) ∨
           (∃ pat ∈ skip_patterns, containsSub url.toLower pat = true))) ∧
    (∀ (fuel : Nat) (env : String → FetchResult) (maxPages : Nat)
        (startUrl : String),
        (runAutomation fuel env maxPages startUrl).visitSeq.Nodup) := by
  refine ⟨?_, ?_, ?_⟩
  · intro visited queue link
    unfold pushLink
    split_ifs with h
    · exact iff_of_true rfl h
    · refine ⟨fun heq => ?_, fun hcond => absurd hcond h⟩
      have := congrArg List.length heq
      simp at this
  · intro url netloc dom
    unfold should_follow_link
    split_ifs with h1 h2 h3
    · exact iff_of_true rfl (Or.inl h1)
    · exact iff_of_true rfl
        (Or.inr (Or.inl (by simpa [List.any_eq_true] using h2)))
    · exact iff_of_true rfl
        (Or.inr (Or.inr (by simpa [List.any_eq_true] using h3)))
    · refine iff_of_false (by simp) ?_
      rintro (h | h | h)
      · exact h1 h
      · exact h2 (List.any_eq_true.2 (by simpa using h))
      · exact h3 (List.any_eq_true.2 (by simpa using h))
  · intro fuel env maxPages startUrl
    exact (runAutomation_inv fuel env maxPages startUrl).2.1

/-- Witness for C4's amended statement: a visited link is dropped,
and a concrete run yields a duplicate-free visit sequence. -/
theorem C4_frontier_amended_witness :
    pushLink ["http://site/y"] [] "http://site/y" = [] ∧
    (runAutomation 3 envAllNavFail 3 "http://site/a").visitSeq.Nodup :=
  ⟨(C4_frontier_amended.1 ["http://site/y"] [] "http://site/y").mpr
      (Or.inl (List.mem_singleton.mpr rfl)),
   C4_frontier_amended.2.2 3 envAllNavFail 3 "http://site/a"⟩

/-- C6 counterexample: a single page-visit attempt whose navigation
times out leaves `total_requests = 0` while `failed_requests = 1` —
a fetch that times out does *not* count one request, because the
finalization sets `total_requests = pages_visited` and the page
counter is only incremented after a successful `driver.get`. -/
theorem C6_total_requests_counterexample :
    (finalizeStats (runAutomation 5 envAllNavFail 3 "http://site/a")).totalRequests
      = 0 ∧
    (runAutomation 5 envAllNavFail 3 "http://site/a").visitSeq.length = 1 ∧
    (finalizeStats (runAutomation 5 envAllNavFail 3 "http://site/a")).failedRequests
      = 1 ∧
    (0 : Int) ≠ 1 :=
  ⟨rfl, rfl, rfl, by decide⟩

/-- C6 amended: the finalized `total_requests` equals `pages_visited`
— the number of attempts whose navigation succeeded, not of all
attempts: attempts split as `total_requests + navigation errors`.
The identity `total = successful + failed` holds by construction
because `successful_requests` is computed as `pages_visited − errors`
(which can go negative). -/
theorem C6_total_requests_amended :
    ∀ (fuel : Nat) (env : String → FetchResult) (maxPages : Nat)
      (startUrl : String),
      (finalizeStats (runAutomation fuel env maxPages startUrl)).totalRequests =
        ((runAutomation fuel env maxPages startUrl).pagesVisited : Int) ∧
      (finalizeStats (runAutomation fuel env maxPages startUrl)).totalRequests =
        (finalizeStats (runAutomation fuel env maxPages startUrl)).successfulRequests
          + (finalizeStats (runAutomation fuel env maxPages startUrl)).failedRequests ∧
      (runAutomation fuel env maxPages startUrl).pagesVisited +
          (runAutomation fuel env maxPages startUrl).navErrors =
        (runAutomation fuel env maxPages startUrl).visitSeq.length := by
  intro fuel env maxPages startUrl
  refine ⟨rfl, ?_, (runAutomation_inv fuel env maxPages startUrl).2.2.2⟩
  simp only [finalizeStats]
  omega

/-- C7 counterexample: a run whose first page loads but whose two
outgoing links both fail navigation finalizes
`successful_requests = -1`, `total_requests = 1`, and the stored
record's `success_rate` evaluates to `-100`, outside `[0,100]`. -/
theorem C7_success_rate_counterexample :
    (finalizeStats
        (runAutomation 10 envOneGoodTwoBad 5 "http://site/a")).successfulRequests
      = -1 ∧
    successRate
        (finalizeStats (runAutomation 10 envOneGoodTwoBad 5 "http://site/a"))
      = -100 ∧
    ¬ (0 : ℚ) ≤ -100 := by
  have h : finalizeStats (runAutomation 10 envOneGoodTwoBad 5 "http://site/a") =
      { totalRequests := 1, successfulRequests := -1
      , failedRequests := 2, captchaDetections := 0 } := by rfl
  refine ⟨by rw [h], ?_, by norm_num⟩
  rw [h]
  norm_num [successRate]

/-- C7 amended: `success_rate` equals
`successful_requests / total_requests * 100` and is `0` when
`total_requests = 0`; it lies in `[0,100]` whenever
`0 ≤ successful_requests ≤ total_requests` — a bound the stats
finalization does not guarantee. -/
theorem C7_success_rate_amended :
    ∀ st : StatsRec,
      (st.totalRequests = 0 → successRate st = 0) ∧
      (st.totalRequests ≠ 0 →
        successRate st =
          (st.successfulRequests : ℚ) / (st.totalRequests : ℚ) * 100) ∧
      (0 ≤ st.successfulRequests → st.successfulRequests ≤ st.totalRequests →
        0 ≤ successRate st ∧ successRate st ≤ 100) := by
  intro st
  refine ⟨fun h => by simp [successRate, h], fun h => by simp [successRate, h], ?_⟩
  intro h0 hle
  by_cases ht : st.totalRequests = 0
  · simp [successRate, ht]
  · have htpos : (0 : ℚ) < (st.totalRequests : ℚ) := by
      have hpos : 0 < st.totalRequests := by omega
      exact_mod_cast hpos
    rw [successRate, if_neg ht]
    constructor
    · apply mul_nonneg (div_nonneg ?_ htpos.le) (by norm_num)
      exact_mod_cast h0
    · have hr : (st.successfulRequests : ℚ) / (st.totalRequests : ℚ) ≤ 1 := by
        rw [div_le_one htpos]
        exact_mod_cast hle
      calc (st.successfulRequests : ℚ) / (st.totalRequests : ℚ) * 100
          ≤ 1 * 100 := mul_le_mul_of_nonneg_right hr (by norm_num)
        _ = 100 := one_mul 100

/-- Witness for C7's amended statement at a concrete record with one
success out of two requests. -/
theorem C7_success_rate_amended_witness :
    successRate { totalRequests := 2, successfulRequests := 1
                , failedRequests := 1, captchaDetections := 0 } =
      (1 : ℚ) / 2 * 100 ∧
    0 ≤ successRate { totalRequests := 2, successfulRequests := 1
                    , failedRequests := 1, captchaDetections := 0 } ∧
    successRate { totalRequests := 2, successfulRequests := 1
                , failedRequests := 1, captchaDetections := 0 } ≤ 100 := by
  obtain ⟨-, h2, h3⟩ := C7_success_rate_amended
    { totalRequests := 2, successfulRequests := 1
    , failedRequests := 1, captchaDetections := 0 }
  obtain ⟨ha, hb⟩ := h3 (by decide) (by decide)
  exact ⟨by simpa using h2 (by decide), ha, hb⟩
